import Mathlib

/-
Shallow embedding of the dialogue-state engine of this repository
(class RentalBotCore in src/core.py) together with proofs about the
frozen specification claims.

Modelling conventions:
- The OpenAI completion client, the Python json module and the sqlite
  store are external collaborators.  Their per-turn behaviour is an
  explicit oracle (TurnOracle): the outcome of the two provider calls,
  the json.loads behaviour on the extracted span, and a success flag
  for every store operation the turn performs.
- Machine state (RentalBotCore fields plus the sqlite tables the core
  touches) is the CoreState record; sqlite rows hold the parsed form of
  the stored JSON column (Python json.dumps/json.loads round-trip on
  real values is the identity, and the code never inspects the raw
  column text).
- datetime.now() is a clock field of the state.  The ClientInfo
  dataclass in src/core.py declares `created_at: datetime =
  datetime.now()`, a default evaluated ONCE at class-definition time;
  it is the constant classInitTime below.
- Observer dispatch is recorded as an event trace (Event): the code
  swallows every exception raised by a handler, so the only observable
  fact about a callback list is that its dispatch loop ran.
- Exceptions are Except values.  Inside chat() the except
  block catches everything raised after `_ensure_initialized`; the
  error payload of chatBody/chatResolved is the state as mutated up to
  the raise point (Python mutations on the cached ClientInfo object
  are visible through self.clients immediately).
- config.py is not under src/.  Modelled from the spec: the completion
  sentinel, the two fixed error strings and the maximum history length
  are opaque configured values (see COMPLETION_MARKER, OPENAI_ERROR,
  TECHNICAL_ERROR and the maxH parameter).
-/

namespace RentalBot

/-! ## Small association-list library (Python dict with string keys) -/

def alookup {α : Type} : List (String × α) → String → Option α
  | [], _ => none
  | (k, v) :: t, key => if k = key then some v else alookup t key

def aset {α : Type} : List (String × α) → String → α → List (String × α)
  | [], key, v => [(key, v)]
  | (k, w) :: t, key, v => if k = key then (key, v) :: t else (k, w) :: aset t key v

def aerase {α : Type} : List (String × α) → String → List (String × α)
  | [], _ => []
  | (k, w) :: t, key => if k = key then aerase t key else (k, w) :: aerase t key

/-! ## Character-level string operations

Python `in`, `str.replace` and `str.strip` are modelled structurally on
the character list of the string so that every use is kernel-computable. -/

def charsLead : List Char → List Char → Bool
  | [], _ => true
  | _ :: _, [] => false
  | p :: ps, c :: cs => (p = c) && charsLead ps cs

def charsContains (pat : List Char) : List Char → Bool
  | [] => charsLead pat []
  | c :: t => charsLead pat (c :: t) || charsContains pat t

/-- Python `pat in hay` (the pattern is nonempty at every call site). -/
def pyContains (hay pat : String) : Bool :=
  charsContains pat.data hay.data

/-- Fuel-indexed worker for `str.replace(pat, "")`; the fuel is the length
of the text, which bounds the number of scan positions. -/
def replaceAllAux (pat : List Char) : Nat → List Char → List Char
  | _, [] => []
  | 0, l => l
  | Nat.succ fuel, c :: t =>
    if charsLead pat (c :: t) && !pat.isEmpty then
      replaceAllAux pat fuel (List.drop pat.length (c :: t))
    else
      c :: replaceAllAux pat fuel t

/-- Python `hay.replace(pat, "")` for a nonempty pattern. -/
def pyReplaceAll (hay pat : String) : String :=
  String.mk (replaceAllAux pat.data hay.data.length hay.data)

def isSpaceChar (c : Char) : Bool :=
  c = ' ' || c = '\n' || c = '\t' || c = '\r'

/-- Python `str.strip()`. -/
def pyStrip (s : String) : String :=
  String.mk (((s.data.dropWhile isSpaceChar).reverse.dropWhile isSpaceChar).reverse)

/-! ## Data model -/

/-- JSON scalar values that can appear in the extracted mapping. -/
inductive JVal where
  | jnull : JVal
  | jbool : Bool → JVal
  | jnum : Int → JVal
  | jstr : String → JVal
deriving DecidableEq

/-- The extracted structured mapping (a parsed JSON object). -/
abbrev Obj := List (String × JVal)

/-- One entry of the per-client conversation buffer. -/
structure Turn where
  role : String
  content : String
deriving DecidableEq

/-- The timestamp at which src/core.py was imported: the dataclass field
default `created_at: datetime = datetime.now()` is evaluated exactly once,
at class-definition time. -/
def classInitTime : Nat := 0

/-- dataclass ClientInfo (src/core.py lines 23-31). -/
structure ClientInfo where
  user_id : String
  raw_data : String := ""
  is_complete : Bool := false
  message_count : Nat := 0
  created_at : Nat := classInitTime
  final_data : Option Obj := none
deriving DecidableEq

/-- dataclass BotResponse (src/core.py lines 34-39). -/
structure BotResponse where
  message : String
  is_completed : Bool := false
  extracted_data : Option Obj := none
deriving DecidableEq

/-- A row of the sqlite `clients` table (the JSON column is kept in parsed
form, see the header comment). -/
structure ClientRow where
  raw_data : String
  final_data : Option Obj
  is_complete : Bool
  message_count : Nat
  created_at : Nat
  updated_at : Nat
deriving DecidableEq

/-- A row of the sqlite `messages` table. -/
structure MessageRow where
  user_id : String
  timestamp : Nat
  sender : String
  content : String
deriving DecidableEq

/-- The sqlite tables the dialogue engine touches. -/
structure DBState where
  clients : List (String × ClientRow) := []
  messages : List MessageRow := []
deriving DecidableEq

/-- RentalBotCore state: in-memory caches, the lazy-init flag, the store
and the wall clock (datetime.now() reads this field). -/
structure CoreState where
  clients : List (String × ClientInfo) := []
  conversation_history : List (String × List Turn) := []
  inited : Bool := false
  db : DBState := {}
  clock : Nat := 0
deriving DecidableEq

/-- Outcome of one OpenAI chat.completions.create call. -/
inductive POutcome where
  | ok : String → POutcome
  | fail : POutcome
deriving DecidableEq

/-- Per-turn behaviour of the external collaborators: the two provider
calls, json.loads on the extracted span, and a success flag for each
store operation the turn can perform. -/
structure TurnOracle where
  gpt : POutcome
  extractResp : POutcome
  parse : String → Option Obj
  initOk : Bool := true
  loadOk : Bool := true
  saveUserMsgOk : Bool := true
  saveBotMsgOk : Bool := true
  saveClientOk : Bool := true

def storeAllOk (o : TurnOracle) : Bool :=
  o.initOk && o.loadOk && o.saveUserMsgOk && o.saveBotMsgOk && o.saveClientOk

/-- Observable dispatch trace of one engine operation: provider calls and
the runs of the three observer lists (handler exceptions are swallowed by
the code, so only the dispatch itself is observable). -/
inductive Event where
  | gptCall : Event
  | extractCall : Event
  | msgObs : String → String → Event
  | complObs : String → Event
  | errObs : String → String → Event
deriving DecidableEq

/-! ## Configured constants

Modelled from the spec: config.py is absent from src/; the spec says the
completion-sentinel token and the fixed error strings are externally
supplied opaque configuration values. -/

/-- Modelled from the spec: BotConstants.COMPLETION_MARKER, the fixed
nonempty sentinel token the model emits on completion. -/
def COMPLETION_MARKER : String := "ANKETA_ZAVERSHENA"

/-- Modelled from the spec: ErrorMessages.OPENAI_ERROR, the fixed reply
returned when the Completion Provider call fails. -/
def OPENAI_ERROR : String := "Izvinite, proizoshla tehnicheskaya oshibka. Poprobuyte pozzhe."

/-- Modelled from the spec: ErrorMessages.TECHNICAL_ERROR, the fixed reply
returned by the except block of chat itself. -/
def TECHNICAL_ERROR : String := "Proizoshla tehnicheskaya oshibka. Poprobuyte esche raz."

/-! ## The engine operations, translated from src/core.py -/

/-- Write-through update of the in-memory client cache under the chat
argument key (Python mutates the aliased object held in self.clients). -/
def cacheSet (st : CoreState) (uid : String) (c : ClientInfo) : CoreState :=
  { st with clients := aset st.clients uid c }

/-- _save_message (lines 359-366), success path: INSERT INTO messages. -/
def saveMessageRow (st : CoreState) (uid sender content : String) : CoreState :=
  { st with db := { st.db with
      messages := st.db.messages ++ [⟨uid, st.clock, sender, content⟩] } }

/-- The value stored in the final_data column: `json.dumps(client.final_data)
if client.final_data else None` — the empty dict is falsy in Python, so a
completed client with an empty mapping is stored with a NULL column. -/
def finalDataColumn : Option Obj → Option Obj
  | some d => if d.isEmpty then none else some d
  | none => none

/-- _save_client (lines 342-357), success path: INSERT OR REPLACE INTO
clients keyed by client.user_id. -/
def saveClientRow (st : CoreState) (c : ClientInfo) : CoreState :=
  { st with db := { st.db with
      clients := aset st.db.clients c.user_id
        ⟨c.raw_data, finalDataColumn c.final_data, c.is_complete,
         c.message_count, c.created_at, st.clock⟩ } }

/-- The trim step of _update_conversation_history (lines 338-340):
`history[-max:]` under the guard `len(history) > max`.  Note that the
Python slice `[-0:]` is the whole list, so a configured maximum of 0
would disable trimming entirely. -/
def trimHistory (maxH : Nat) (l : List Turn) : List Turn :=
  if l.length > maxH then
    (if maxH = 0 then l else l.drop (l.length - maxH))
  else l

/-- _update_conversation_history (lines 328-340). -/
def updateConversationHistory (maxH : Nat) (st : CoreState)
    (uid role content : String) : CoreState :=
  let hist := (alookup st.conversation_history uid).getD []
  let hist2 := aset st.conversation_history uid (trimHistory maxH (hist ++ [⟨role, content⟩]))
  { st with conversation_history := hist2 }

/-- _ensure_initialized (lines 78-83): table creation and the stats load
are one fallible store operation; the aggregate stats themselves play no
role in any claim and are not modelled. -/
def ensureInited (o : TurnOracle) (st : CoreState) : Except Unit CoreState :=
  if st.inited then Except.ok st
  else if o.initOk then Except.ok { st with inited := true }
  else Except.error ()

/-- clientFromRow: the ClientInfo constructor call in _get_or_create_client
(lines 277-283).  created_at is NOT read back from the row; the dataclass
default (classInitTime) applies. -/
def clientFromRow (uid : String) (row : ClientRow) : ClientInfo :=
  { user_id := uid, raw_data := row.raw_data, is_complete := row.is_complete,
    message_count := row.message_count, final_data := row.final_data }

/-- _get_or_create_client (lines 259-289).  The stats counter increment for
a brand-new client is not modelled. -/
def getOrCreateClient (o : TurnOracle) (st : CoreState) (uid : String) :
    Except Unit (CoreState × ClientInfo) :=
  match alookup st.clients uid with
  | some c => Except.ok (st, c)
  | none =>
    if o.loadOk then
      match alookup st.db.clients uid with
      | some row =>
        let c := clientFromRow uid row
        Except.ok (cacheSet st uid c, c)
      | none =>
        let c : ClientInfo := { user_id := uid }
        Except.ok (cacheSet st uid c, c)
    else Except.error ()

/-- _generate_gpt_response (lines 199-227): the request payload (system
prompt, trimmed history, first-turn instruction) only influences the
answer of the oracle and is abstracted by it; an exception from the provider is
caught locally and replaced by the OPENAI_ERROR string. -/
def generateGptResponse (o : TurnOracle) : String :=
  match o.gpt with
  | POutcome.ok t => pyStrip t
  | POutcome.fail => OPENAI_ERROR

/-- The text returned by the main provider call of this turn. -/
def gptText (o : TurnOracle) : String := generateGptResponse o

/-- Line 167: `BotConstants.COMPLETION_MARKER in bot_message`. -/
def isCompletedTurn (o : TurnOracle) : Bool :=
  pyContains (gptText o) COMPLETION_MARKER

/-- Line 169: strip the sentinel from the reply when it was detected. -/
def botText (o : TurnOracle) : String :=
  if isCompletedTurn o then pyStrip (pyReplaceAll (gptText o) COMPLETION_MARKER)
  else gptText o

/-- The span matched by the DOTALL regex search for open-brace, greedy dot-star, close-brace
(line 246): the regex matches at the earliest position holding a brace
that is followed by a closing brace somewhere later, and the greedy
DOTALL `.*` then extends to the LAST closing brace of the whole text;
equivalently, the span runs from the first open brace to the last close
brace whenever the former precedes the latter. -/
def firstBraceSpan (s : String) : Option String :=
  let cs := s.data
  match cs.findIdx? (fun ch => ch = '\x7b') with
  | none => none
  | some i =>
    match cs.reverse.findIdx? (fun ch => ch = '\x7d') with
    | none => none
    | some k =>
      let j := cs.length - 1 - k
      if i < j then some (String.mk ((cs.drop i).take (j - i + 1))) else none

/-- _extract_final_data (lines 229-255).  The extraction prompt is built
from the raw transcript of the client but only feeds the oracle; a provider
exception or a json.loads exception is caught by the local
try/except of the function and yields the empty mapping. -/
def extractFinalData (o : TurnOracle) (_c : ClientInfo) : Obj :=
  match o.extractResp with
  | POutcome.fail => []
  | POutcome.ok t =>
    match firstBraceSpan (pyStrip t) with
    | none => []
    | some span =>
      match o.parse span with
      | some d => d
      | none => []

/-- The trace of _call_handlers (lines 370-393): the message-handler loop
always runs; the completion-handler loop runs only when the turn reports
completion and the record was not already complete on entry. -/
def eventsOf (uid msg : String) (o : TurnOracle) (was_completed : Bool) : List Event :=
  [Event.gptCall]
    ++ (if isCompletedTurn o then [Event.extractCall] else [])
    ++ [Event.msgObs uid msg]
    ++ (if isCompletedTurn o && !was_completed then [Event.complObs uid] else [])

/-- The body of chat() from line 150 onward, once the ClientRecord is
resolved.  A store failure raises: the error payload is the state as
mutated so far plus the provider-call events already performed. -/
def chatResolved (maxH : Nat) (o : TurnOracle) (st0 : CoreState)
    (uid msg : String) (c : ClientInfo) :
    Except (CoreState × List Event) (CoreState × BotResponse × List Event) :=
  let was_completed := c.is_complete
  let c1 : ClientInfo := { c with message_count := c.message_count + 1 }
  let st1 := cacheSet st0 uid c1
  if o.saveUserMsgOk then
    let st2 := saveMessageRow st1 uid "user" msg
    let c2 : ClientInfo := { c1 with raw_data := c1.raw_data ++ "\nПользователь: " ++ msg }
    let st3 := cacheSet st2 uid c2
    let st4 := updateConversationHistory maxH st3 uid "user" msg
    let is_completed := isCompletedTurn o
    let bot_message := botText o
    let c3 : ClientInfo := if is_completed then { c2 with is_complete := true } else c2
    let c4 : ClientInfo :=
      if is_completed then { c3 with final_data := some (extractFinalData o c3) } else c3
    let st5 := cacheSet st4 uid c4
    let c5 : ClientInfo := { c4 with raw_data := c4.raw_data ++ "\nСветлана: " ++ bot_message }
    let st6 := cacheSet st5 uid c5
    let st7 := updateConversationHistory maxH st6 uid "assistant" bot_message
    if o.saveBotMsgOk then
      let st8 := saveMessageRow st7 uid "bot" bot_message
      if o.saveClientOk then
        let st9 := saveClientRow st8 c5
        let response : BotResponse :=
          ⟨bot_message, is_completed, if is_completed then c5.final_data else none⟩
        Except.ok (st9, response, eventsOf uid msg o was_completed)
      else
        Except.error (st8, [Event.gptCall]
          ++ (if is_completed then [Event.extractCall] else []))
    else
      Except.error (st7, [Event.gptCall]
        ++ (if is_completed then [Event.extractCall] else []))
  else Except.error (st1, [])

/-- The part of chat() covered by its try block (lines 147-192). -/
def chatBody (maxH : Nat) (o : TurnOracle) (st : CoreState) (uid msg : String) :
    Except (CoreState × List Event) (CoreState × BotResponse × List Event) :=
  match getOrCreateClient o st uid with
  | Except.error _ => Except.error (st, [])
  | Except.ok (st1, c) => chatResolved maxH o st1 uid msg c

/-- chat (lines 141-197).  _ensure_initialized runs OUTSIDE the try block:
its failure propagates to the caller.  Everything raised inside the try is
caught; the except block runs the error-handler loop and returns the fixed
TECHNICAL_ERROR response. -/
def chat (maxH : Nat) (o : TurnOracle) (st : CoreState) (uid msg : String) :
    Except Unit (CoreState × BotResponse × List Event) :=
  match ensureInited o st with
  | Except.error _ => Except.error ()
  | Except.ok st1 =>
    match chatBody maxH o st1 uid msg with
    | Except.ok r => Except.ok r
    | Except.error (st2, evs) =>
      Except.ok (st2, ⟨TECHNICAL_ERROR, false, none⟩, evs ++ [Event.errObs uid msg])

/-- get_client_info (lines 291-293): a direct call to
_get_or_create_client (no lazy-init guard, no provider call). -/
def getClientInfo (o : TurnOracle) (st : CoreState) (uid : String) :
    Except Unit (CoreState × ClientInfo) :=
  getOrCreateClient o st uid

/-- reset_client (lines 309-324): overwrite the cache entry with a fresh
zero-state ClientInfo, save it, drop the conversation buffer; every
exception is caught and turned into a False return.  No handler loop runs
anywhere in the function, hence the empty event trace. -/
def resetClient (o : TurnOracle) (st : CoreState) (uid : String) :
    CoreState × Bool × List Event :=
  match ensureInited o st with
  | Except.error _ => (st, false, [])
  | Except.ok st1 =>
    let c : ClientInfo := { user_id := uid }
    let st2 := cacheSet st1 uid c
    if o.saveClientOk then
      let st3 := saveClientRow st2 c
      let st4 := { st3 with conversation_history := aerase st3.conversation_history uid }
      (st4, true, [])
    else (st2, false, [])

/-! ## Derived observation helpers used by the theorems -/

/-- Whether the record of the client reads as complete, through the cache first
and then the store — the value _get_or_create_client would resolve. -/
def recComplete (st : CoreState) (uid : String) : Bool :=
  match alookup st.clients uid with
  | some c => c.is_complete
  | none =>
    match alookup st.db.clients uid with
    | some row => row.is_complete
    | none => false

/-- Number of completion-observer dispatches in a trace. -/
def countCompl (evs : List Event) : Nat :=
  evs.countP (fun e => match e with | Event.complObs _ => true | _ => false)

/-- Sequential chat() turns for one client; a propagated exception aborts
the run. -/
def runChats (maxH : Nat) (uid : String) :
    List (TurnOracle × String) → CoreState → CoreState × List Event
  | [], st => (st, [])
  | (o, msg) :: rest, st =>
    match chat maxH o st uid msg with
    | Except.ok (st1, _, evs) =>
      let r := runChats maxH uid rest st1
      (r.1, evs ++ r.2)
    | Except.error _ => (st, [])

/-- The most recent n entries of a list, in order. -/
def suffixWindow (n : Nat) (l : List Turn) : List Turn :=
  if l.length ≤ n then l else l.drop (l.length - n)

/-- Iterated _update_conversation_history calls for one client. -/
def runHistory (maxH : Nat) (uid : String) (items : List Turn) (st : CoreState) : CoreState :=
  items.foldl (fun s t => updateConversationHistory maxH s uid t.role t.content) st

/-- The conversation buffer of a client (empty when absent). -/
def bufferOf (st : CoreState) (uid : String) : List Turn :=
  (alookup st.conversation_history uid).getD []

/-! ## Association-list lemmas -/

theorem alookup_aset_self {α : Type} (l : List (String × α)) (k : String) (v : α) :
    alookup (aset l k v) k = some v := by
  induction l with
  | nil => simp [aset, alookup]
  | cons hd t ih =>
    obtain ⟨k0, v0⟩ := hd
    by_cases hk : k0 = k
    · simp [aset, hk, alookup]
    · simp [aset, hk, alookup, ih]

theorem alookup_aset_ne {α : Type} (l : List (String × α)) (k k2 : String) (v : α)
    (h : k2 ≠ k) : alookup (aset l k v) k2 = alookup l k2 := by
  have h2 : ¬ (k = k2) := fun hh => h hh.symm
  induction l with
  | nil => simp [aset, alookup, h2]
  | cons hd t ih =>
    obtain ⟨k0, v0⟩ := hd
    by_cases hk : k0 = k
    · simp [aset, hk, alookup, h2]
    · by_cases hk2 : k0 = k2
      · simp [aset, hk, alookup, hk2, h2, h]
      · simp [aset, hk, alookup, hk2, ih]

theorem alookup_aerase_self {α : Type} (l : List (String × α)) (k : String) :
    alookup (aerase l k) k = none := by
  induction l with
  | nil => simp [aerase, alookup]
  | cons hd t ih =>
    obtain ⟨k0, v0⟩ := hd
    by_cases hk : k0 = k
    · simp [aerase, hk, ih]
    · simp [aerase, hk, alookup, ih]

theorem alookup_aerase_ne {α : Type} (l : List (String × α)) (k k2 : String)
    (h : k2 ≠ k) : alookup (aerase l k) k2 = alookup l k2 := by
  induction l with
  | nil => simp [aerase]
  | cons hd t ih =>
    obtain ⟨k0, v0⟩ := hd
    by_cases hk : k0 = k
    · have h2 : ¬ (k = k2) := fun hh => h hh.symm
      simp [aerase, hk, alookup, h2, ih]
    · simp [aerase, hk, alookup, ih]

/-! ## Projection lemmas for the state transformers -/

@[simp] theorem cacheSet_clients (st : CoreState) (uid : String) (c : ClientInfo) :
    (cacheSet st uid c).clients = aset st.clients uid c := rfl

@[simp] theorem cacheSet_db (st : CoreState) (uid : String) (c : ClientInfo) :
    (cacheSet st uid c).db = st.db := rfl

@[simp] theorem cacheSet_history (st : CoreState) (uid : String) (c : ClientInfo) :
    (cacheSet st uid c).conversation_history = st.conversation_history := rfl

@[simp] theorem cacheSet_inited (st : CoreState) (uid : String) (c : ClientInfo) :
    (cacheSet st uid c).inited = st.inited := rfl

@[simp] theorem cacheSet_clock (st : CoreState) (uid : String) (c : ClientInfo) :
    (cacheSet st uid c).clock = st.clock := rfl

@[simp] theorem saveMessageRow_clients (st : CoreState) (uid s c : String) :
    (saveMessageRow st uid s c).clients = st.clients := rfl

@[simp] theorem saveMessageRow_dbclients (st : CoreState) (uid s c : String) :
    (saveMessageRow st uid s c).db.clients = st.db.clients := rfl

@[simp] theorem saveMessageRow_messages (st : CoreState) (uid s c : String) :
    (saveMessageRow st uid s c).db.messages
      = st.db.messages ++ [⟨uid, st.clock, s, c⟩] := rfl

@[simp] theorem saveMessageRow_history (st : CoreState) (uid s c : String) :
    (saveMessageRow st uid s c).conversation_history = st.conversation_history := rfl

@[simp] theorem saveMessageRow_inited (st : CoreState) (uid s c : String) :
    (saveMessageRow st uid s c).inited = st.inited := rfl

@[simp] theorem saveMessageRow_clock (st : CoreState) (uid s c : String) :
    (saveMessageRow st uid s c).clock = st.clock := rfl

@[simp] theorem saveClientRow_clients (st : CoreState) (c : ClientInfo) :
    (saveClientRow st c).clients = st.clients := rfl

@[simp] theorem saveClientRow_messages (st : CoreState) (c : ClientInfo) :
    (saveClientRow st c).db.messages = st.db.messages := rfl

@[simp] theorem saveClientRow_dbclients (st : CoreState) (c : ClientInfo) :
    (saveClientRow st c).db.clients
      = aset st.db.clients c.user_id
          ⟨c.raw_data, finalDataColumn c.final_data, c.is_complete,
           c.message_count, c.created_at, st.clock⟩ := rfl

@[simp] theorem saveClientRow_history (st : CoreState) (c : ClientInfo) :
    (saveClientRow st c).conversation_history = st.conversation_history := rfl

@[simp] theorem saveClientRow_inited (st : CoreState) (c : ClientInfo) :
    (saveClientRow st c).inited = st.inited := rfl

@[simp] theorem saveClientRow_clock (st : CoreState) (c : ClientInfo) :
    (saveClientRow st c).clock = st.clock := rfl

@[simp] theorem updateHistory_clients (maxH : Nat) (st : CoreState) (uid r c : String) :
    (updateConversationHistory maxH st uid r c).clients = st.clients := rfl

@[simp] theorem updateHistory_db (maxH : Nat) (st : CoreState) (uid r c : String) :
    (updateConversationHistory maxH st uid r c).db = st.db := rfl

@[simp] theorem updateHistory_inited (maxH : Nat) (st : CoreState) (uid r c : String) :
    (updateConversationHistory maxH st uid r c).inited = st.inited := rfl

@[simp] theorem updateHistory_clock (maxH : Nat) (st : CoreState) (uid r c : String) :
    (updateConversationHistory maxH st uid r c).clock = st.clock := rfl

/-! ## Behaviour of the composed operations -/

theorem ensureInited_of_inited (o : TurnOracle) (st : CoreState) (h : st.inited = true) :
    ensureInited o st = Except.ok st := by
  simp [ensureInited, h]

theorem ensureInited_ok (o : TurnOracle) (st : CoreState) (h : o.initOk = true) :
    ∃ st1, ensureInited o st = Except.ok st1
      ∧ st1.clients = st.clients ∧ st1.db = st.db
      ∧ st1.conversation_history = st.conversation_history ∧ st1.clock = st.clock := by
  by_cases hi : st.inited = true
  · exact ⟨st, by simp [ensureInited, hi], rfl, rfl, rfl, rfl⟩
  · refine ⟨{ st with inited := true }, ?_, rfl, rfl, rfl, rfl⟩
    simp [ensureInited, hi, h]

theorem getOrCreateClient_spec (o : TurnOracle) (st : CoreState) (uid : String)
    (h : o.loadOk = true) :
    ∃ st1 c, getOrCreateClient o st uid = Except.ok (st1, c)
      ∧ c.is_complete = recComplete st uid
      ∧ alookup st1.clients uid = some c
      ∧ st1.db = st.db
      ∧ st1.conversation_history = st.conversation_history
      ∧ st1.inited = st.inited ∧ st1.clock = st.clock := by
  cases hc : alookup st.clients uid with
  | some c =>
    refine ⟨st, c, ?_, ?_, hc, rfl, rfl, rfl, rfl⟩
    · simp [getOrCreateClient, hc]
    · simp [recComplete, hc]
  | none =>
    cases hr : alookup st.db.clients uid with
    | some row =>
      refine ⟨cacheSet st uid (clientFromRow uid row), clientFromRow uid row,
        ?_, ?_, ?_, rfl, rfl, rfl, rfl⟩
      · simp [getOrCreateClient, hc, h, hr]
      · simp [recComplete, hc, hr, clientFromRow]
      · simp [alookup_aset_self]
    | none =>
      refine ⟨cacheSet st uid { user_id := uid }, { user_id := uid },
        ?_, ?_, ?_, rfl, rfl, rfl, rfl⟩
      · simp [getOrCreateClient, hc, h, hr]
      · simp [recComplete, hc, hr, ClientInfo.is_complete]
      · simp [alookup_aset_self]

theorem chat_cacheHit (maxH : Nat) (o : TurnOracle) (st : CoreState) (uid msg : String)
    (c : ClientInfo) (hin : st.inited = true) (hc : alookup st.clients uid = some c) :
    chat maxH o st uid msg =
      match chatResolved maxH o st uid msg c with
      | Except.ok r => Except.ok r
      | Except.error (st2, evs) =>
        Except.ok (st2, ⟨TECHNICAL_ERROR, false, none⟩, evs ++ [Event.errObs uid msg]) := by
  simp [chat, ensureInited, hin, chatBody, getOrCreateClient, hc]

theorem extractFinalData_client (o : TurnOracle) (a b : ClientInfo) :
    extractFinalData o a = extractFinalData o b := rfl

theorem chatResolved_spec (maxH : Nat) (o : TurnOracle) (st : CoreState) (uid msg : String)
    (c : ClientInfo) (hu : o.saveUserMsgOk = true) (hb : o.saveBotMsgOk = true)
    (hs : o.saveClientOk = true) :
    ∃ st' cF,
      chatResolved maxH o st uid msg c =
        Except.ok (st',
          ⟨botText o, isCompletedTurn o,
           if isCompletedTurn o then cF.final_data else none⟩,
          eventsOf uid msg o c.is_complete)
      ∧ alookup st'.clients uid = some cF
      ∧ cF.user_id = c.user_id
      ∧ cF.is_complete = (c.is_complete || isCompletedTurn o)
      ∧ cF.message_count = c.message_count + 1
      ∧ cF.created_at = c.created_at
      ∧ cF.final_data
          = (if isCompletedTurn o then some (extractFinalData o c) else c.final_data)
      ∧ st'.db.messages
          = st.db.messages
            ++ [⟨uid, st.clock, "user", msg⟩, ⟨uid, st.clock, "bot", botText o⟩]
      ∧ st'.inited = st.inited ∧ st'.clock = st.clock := by
  unfold chatResolved
  rw [hu, hb, hs]
  cases hcompl : isCompletedTurn o with
  | false =>
    simp only [hcompl, if_true, Bool.false_eq_true, if_false]
    refine ⟨_, { c with message_count := c.message_count + 1, raw_data := c.raw_data ++ "\nПользователь: " ++ msg ++ "\nСветлана: " ++ botText o }, rfl, ?_, rfl, ?_, rfl, rfl, rfl, ?_, ?_, ?_⟩
    · simp [alookup_aset_self]
    · simp
    · simp [List.append_assoc]
    · simp
    · simp
  | true =>
    simp only [hcompl, if_true, if_false]
    -- marker present: the record is completed and extraction runs

    refine ⟨_, { c with message_count := c.message_count + 1, raw_data := c.raw_data ++ "\nПользователь: " ++ msg ++ "\nСветлана: " ++ botText o, is_complete := true, final_data := some (extractFinalData o c) }, rfl, ?_, rfl, ?_, rfl, rfl, rfl, ?_, ?_, ?_⟩
    · simp only [saveClientRow_clients, saveMessageRow_clients, updateHistory_clients,
        cacheSet_clients, alookup_aset_self]
      rw [extractFinalData_client o _ c]
    · simp
    · simp [List.append_assoc]
    · simp
    · simp

theorem countCompl_append (a b : List Event) :
    countCompl (a ++ b) = countCompl a + countCompl b := by
  simp [countCompl, List.countP_append]

theorem countCompl_eventsOf (uid msg : String) (o : TurnOracle) (was : Bool) :
    countCompl (eventsOf uid msg o was)
      = (if isCompletedTurn o && !was then 1 else 0) := by
  cases hcompl : isCompletedTurn o <;> cases hw : was <;>
    simp [eventsOf, countCompl, hcompl, hw, List.countP_append, List.countP_cons]

theorem chat_spec (maxH : Nat) (o : TurnOracle) (st : CoreState) (uid msg : String)
    (hall : storeAllOk o = true) :
    ∃ st' cF,
      chat maxH o st uid msg =
        Except.ok (st',
          ⟨botText o, isCompletedTurn o,
           if isCompletedTurn o then cF.final_data else none⟩,
          eventsOf uid msg o (recComplete st uid))
      ∧ alookup st'.clients uid = some cF
      ∧ cF.is_complete = (recComplete st uid || isCompletedTurn o)
      ∧ recComplete st' uid = (recComplete st uid || isCompletedTurn o) := by
  simp only [storeAllOk, Bool.and_eq_true] at hall
  obtain ⟨⟨⟨⟨hio, hlo⟩, huo⟩, hbo⟩, hso⟩ := hall
  obtain ⟨st1, hens, h1c, h1db, h1h, h1k⟩ := ensureInited_ok o st hio
  have hrc1 : recComplete st1 uid = recComplete st uid := by
    simp [recComplete, h1c, h1db]
  obtain ⟨st2, c, hget, hcompl, hlk, h2db, h2h, h2in, h2k⟩ :=
    getOrCreateClient_spec o st1 uid hlo
  obtain ⟨st3, cF, hres, halk, huid, hic, hmc, hca, hfd, hmsg, h3in, h3k⟩ :=
    chatResolved_spec maxH o st2 uid msg c huo hbo hso
  refine ⟨st3, cF, ?_, halk, ?_, ?_⟩
  · have hwas : c.is_complete = recComplete st uid := by rw [hcompl, hrc1]
    rw [← hwas]
    simp [chat, hens, chatBody, hget, hres]
  · rw [hic, hcompl, hrc1]
  · have h3 : recComplete st3 uid = cF.is_complete := by simp [recComplete, halk]
    rw [h3, hic, hcompl, hrc1]

theorem chat_step_complete (maxH : Nat) (o : TurnOracle) (st : CoreState) (uid msg : String)
    (st' : CoreState) (resp : BotResponse) (evs : List Event)
    (hall : storeAllOk o = true)
    (h : chat maxH o st uid msg = Except.ok (st', resp, evs)) :
    (recComplete st uid = true → recComplete st' uid = true)
    ∧ countCompl evs
        = (if recComplete st uid = false ∧ recComplete st' uid = true then 1 else 0) := by
  obtain ⟨st2, cF, heq, halk, hic, hrc⟩ := chat_spec maxH o st uid msg hall
  rw [h] at heq
  obtain ⟨hst, hresp, hevs⟩ : st' = st2 ∧ resp = _ ∧ evs = _ := by
    simpa using heq
  constructor
  · intro hb
    rw [hst, hrc, hb]
    simp
  · rw [hevs, countCompl_eventsOf, hst, hrc]
    cases hcb : recComplete st uid <;> cases hcc : isCompletedTurn o <;> simp [hcb, hcc]

theorem runChats_complObs_bound (maxH : Nat) (uid : String) :
    ∀ (turns : List (TurnOracle × String)) (st : CoreState),
      (∀ x ∈ turns, storeAllOk x.1 = true) →
      countCompl (runChats maxH uid turns st).2
        ≤ (if recComplete st uid = true then 0 else 1) := by
  intro turns
  induction turns with
  | nil =>
    intro st h
    simp [runChats, countCompl]
  | cons hd rest ih =>
    intro st h
    obtain ⟨o, msg⟩ := hd
    have ho : storeAllOk o = true := h (o, msg) (by simp)
    have hrest : ∀ x ∈ rest, storeAllOk x.1 = true :=
      fun x hx => h x (List.mem_cons_of_mem _ hx)
    cases hchat : chat maxH o st uid msg with
    | error e =>
      simp [runChats, hchat, countCompl]
    | ok r =>
      obtain ⟨st1, resp, evs⟩ := r
      obtain ⟨hmono, hcount⟩ := chat_step_complete maxH o st uid msg st1 resp evs ho hchat
      have hr := ih st1 hrest
      simp only [runChats, hchat]
      rw [countCompl_append, hcount]
      cases hb : recComplete st uid with
      | true =>
        have hb1 : recComplete st1 uid = true := hmono hb
        rw [hb] at hcount
        simp only [hb1, if_true] at hr
        simp [hb, hb1]
        omega
      | false =>
        cases hb1 : recComplete st1 uid with
        | true =>
          simp only [hb1, if_true] at hr
          simp [hb, hb1]
          omega
        | false =>
          simp only [hb1, Bool.false_eq_true, if_false] at hr
          simp [hb, hb1]
          omega

/-! ## Conversation-window lemmas -/

theorem trimHistory_window_step (n : Nat) (hn : 1 ≤ n) (l : List Turn) (t : Turn) :
    trimHistory n (suffixWindow n l ++ [t]) = suffixWindow n (l ++ [t]) := by
  by_cases h1 : l.length ≤ n
  · have hsw : suffixWindow n l = l := by rw [suffixWindow, if_pos h1]
    rw [hsw]
    simp only [trimHistory, suffixWindow, List.length_append, List.length_cons,
      List.length_nil]
    split_ifs <;> first | rfl | omega
  · have hsw : suffixWindow n l = l.drop (l.length - n) := by rw [suffixWindow, if_neg h1]
    have hlenD : (l.drop (l.length - n)).length = n := by
      rw [List.length_drop]
      omega
    rw [hsw]
    have hcond : (l.drop (l.length - n) ++ [t]).length > n := by
      simp [hlenD]
    rw [trimHistory, if_pos hcond, if_neg (by omega : ¬ (n = 0))]
    have hidx : (l.drop (l.length - n) ++ [t]).length - n = 1 := by
      simp [hlenD]
    rw [hidx]
    rw [List.drop_append_of_le_length (by omega : 1 ≤ (l.drop (l.length - n)).length)]
    rw [List.drop_drop]
    rw [suffixWindow, if_neg (by simp; omega)]
    rw [List.drop_append_of_le_length (by simp; omega)]
    have hsame : l.length - n + 1 = (l ++ [t]).length - n := by simp; omega
    rw [hsame]

theorem foldWin_eq (n : Nat) (hn : 1 ≤ n) (l : List Turn) :
    l.foldl (fun a t => trimHistory n (a ++ [t])) [] = suffixWindow n l := by
  induction l using List.reverseRecOn with
  | nil => simp [suffixWindow]
  | append_singleton l t ih =>
    rw [List.foldl_append]
    simp only [List.foldl_cons, List.foldl_nil]
    rw [ih, trimHistory_window_step n hn]

theorem bufferOf_update (maxH : Nat) (st : CoreState) (uid role content : String) :
    bufferOf (updateConversationHistory maxH st uid role content) uid
      = trimHistory maxH (bufferOf st uid ++ [⟨role, content⟩]) := by
  simp [bufferOf, updateConversationHistory, alookup_aset_self]

theorem bufferOf_runHistory (maxH : Nat) (uid : String) :
    ∀ (items : List Turn) (st : CoreState),
      bufferOf (runHistory maxH uid items st) uid
        = items.foldl (fun a t => trimHistory maxH (a ++ [t])) (bufferOf st uid) := by
  intro items
  induction items with
  | nil => intro st; simp [runHistory]
  | cons t rest ih =>
    intro st
    have hstep : runHistory maxH uid (t :: rest) st
        = runHistory maxH uid rest
            (updateConversationHistory maxH st uid t.role t.content) := rfl
    rw [hstep, ih, bufferOf_update]
    rfl

theorem suffixWindow_length (n : Nat) (l : List Turn) :
    (suffixWindow n l).length = min l.length n := by
  rw [suffixWindow]
  split_ifs with h
  · omega
  · rw [List.length_drop]
    omega

/-! ## Brace-span lemmas -/

theorem findIdxQ_none {α : Type} (p : α → Bool) :
    ∀ (l : List α) (i : Nat), (∀ x ∈ l, p x = false) → l.findIdx? p i = none := by
  intro l
  induction l with
  | nil => intro i h; rfl
  | cons a t ih =>
    intro i h
    have ha : p a = false := h a (by simp)
    simp only [List.findIdx?, ha]
    exact ih (i + 1) (fun x hx => h x (List.mem_cons_of_mem _ hx))

theorem firstBraceSpan_none_of_no_open (s : String)
    (h : ∀ ch ∈ s.data, ch ≠ '\x7b') : firstBraceSpan s = none := by
  rw [firstBraceSpan]
  have hidx : s.data.findIdx? (fun ch => ch = '\x7b') = none := by
    apply findIdxQ_none
    intro x hx
    simp [h x hx]
  simp [hidx]

/-! ## Small composition lemmas for chat -/

theorem chatBody_of_get (maxH : Nat) (o : TurnOracle) (st : CoreState) (uid msg : String)
    (st1 : CoreState) (c : ClientInfo)
    (hget : getOrCreateClient o st uid = Except.ok (st1, c)) :
    chatBody maxH o st uid msg = chatResolved maxH o st1 uid msg c := by
  simp [chatBody, hget]

theorem chat_body_ok (maxH : Nat) (o : TurnOracle) (st : CoreState) (uid msg : String)
    (r : CoreState × BotResponse × List Event) (hin : st.inited = true)
    (h : chatBody maxH o st uid msg = Except.ok r) :
    chat maxH o st uid msg = Except.ok r := by
  simp [chat, ensureInited_of_inited o st hin, h]

theorem chat_body_error (maxH : Nat) (o : TurnOracle) (st : CoreState) (uid msg : String)
    (hin : st.inited = true) (st2 : CoreState) (evs : List Event)
    (h : chatBody maxH o st uid msg = Except.error (st2, evs)) :
    chat maxH o st uid msg
      = Except.ok (st2, ⟨TECHNICAL_ERROR, false, none⟩, evs ++ [Event.errObs uid msg]) := by
  simp [chat, ensureInited_of_inited o st hin, h]

theorem chat_of_resolved_ok (maxH : Nat) (o : TurnOracle) (st : CoreState) (uid msg : String)
    (c : ClientInfo) (hin : st.inited = true) (hc : alookup st.clients uid = some c)
    (r : CoreState × BotResponse × List Event)
    (h : chatResolved maxH o st uid msg c = Except.ok r) :
    chat maxH o st uid msg = Except.ok r := by
  rw [chat_cacheHit maxH o st uid msg c hin hc, h]

theorem chatResolved_saveClientFail (maxH : Nat) (o : TurnOracle) (st : CoreState)
    (uid msg : String) (c : ClientInfo) (hu : o.saveUserMsgOk = true)
    (hb : o.saveBotMsgOk = true) (hs : o.saveClientOk = false) :
    ∃ stE, chatResolved maxH o st uid msg c
      = Except.error (stE, [Event.gptCall]
          ++ (if isCompletedTurn o then [Event.extractCall] else [])) := by
  unfold chatResolved
  rw [hu, hb, hs]
  simp only [if_true, Bool.false_eq_true, if_false]
  exact ⟨_, rfl⟩

/-! ## Concrete fixtures for witnesses and counterexamples -/

/-- A json.loads stand-in that fails on every input. -/
def parse0 : String → Option Obj := fun _ => none

/-- An initialized engine with empty caches and an empty store. -/
def stFresh : CoreState :=
  { clients := [], conversation_history := [], inited := true,
    db := { clients := [], messages := [] }, clock := 0 }

/-- An initialized engine holding one cached zero-state client "u". -/
def stCached : CoreState :=
  { clients := [("u", { user_id := "u" })], conversation_history := [],
    inited := true, db := { clients := [], messages := [] }, clock := 0 }

/-- Oracle: the provider always fails, every store operation succeeds. -/
def oProviderFail : TurnOracle :=
  { gpt := POutcome.fail, extractResp := POutcome.fail, parse := parse0 }

/-- Oracle: the provider replies with the completion sentinel and the
extraction response holds no JSON object. -/
def oMark : TurnOracle :=
  { gpt := POutcome.ok ("Spasibo, vse zapisal. " ++ COMPLETION_MARKER),
    extractResp := POutcome.ok "zdes net dannyh", parse := parse0 }

/-! ## Claim C1 -/

/-- C1 counterexample: with a provider that always fails, a turn run from a
fresh initialized engine returns normally with the fixed provider-error
reply, but the dispatched observers are the message observers only (no
error-observer run), and the turn persists both a "user" and a "bot" row —
the assistant error text IS persisted — contradicting the claim that error
observers are invoked and that nothing beyond step 2 is persisted. -/
theorem claim_C1_counterexample :
    (chat 10 oProviderFail stFresh "u" "hi").toOption.map
        (fun r => (r.2.2, r.1.db.messages.map MessageRow.sender, r.2.1.message))
      = some ([Event.gptCall, Event.msgObs "u" "hi"], ["user", "bot"], OPENAI_ERROR) := by
  decide

/-- C1 (amended): when the Completion Provider call fails on a turn for a
cached not-yet-complete client and the store works, chat returns a
TurnResult carrying the fixed provider-error message with no completion
and no extracted data; the MESSAGE observers run (the error observers do
not); the message count is incremented; isComplete stays false; and the
turn persists the inbound row AND the assistant error reply row plus the
client record — i.e. the normal step 7/8 effects happen with the error
text as the assistant reply. -/
theorem claim_C1_amended (maxH : Nat) (o : TurnOracle) (st : CoreState) (uid msg : String)
    (c : ClientInfo) (hin : st.inited = true) (hc : alookup st.clients uid = some c)
    (hnc : c.is_complete = false) (hall : storeAllOk o = true)
    (hg : o.gpt = POutcome.fail) :
    ∃ st' cF,
      chat maxH o st uid msg
        = Except.ok (st', ⟨OPENAI_ERROR, false, none⟩,
            [Event.gptCall, Event.msgObs uid msg])
      ∧ alookup st'.clients uid = some cF
      ∧ cF.message_count = c.message_count + 1
      ∧ cF.is_complete = false
      ∧ cF.final_data = c.final_data
      ∧ st'.db.messages = st.db.messages
          ++ [⟨uid, st.clock, "user", msg⟩, ⟨uid, st.clock, "bot", OPENAI_ERROR⟩] := by
  simp only [storeAllOk, Bool.and_eq_true] at hall
  obtain ⟨⟨⟨⟨hio, hlo⟩, huo⟩, hbo⟩, hso⟩ := hall
  have hgt : gptText o = OPENAI_ERROR := by simp [gptText, generateGptResponse, hg]
  have hcompl : isCompletedTurn o = false := by
    rw [isCompletedTurn, hgt]
    decide
  have hbot : botText o = OPENAI_ERROR := by
    rw [botText, hcompl]
    simp [hgt]
  obtain ⟨st3, cF, hres, halk, huid2, hic, hmc, hca, hfd, hmsg, h3in, h3k⟩ :=
    chatResolved_spec maxH o st uid msg c huo hbo hso
  have hchat := chat_of_resolved_ok maxH o st uid msg c hin hc _ hres
  refine ⟨st3, cF, ?_, halk, hmc, ?_, ?_, ?_⟩
  · rw [hchat]
    rw [hbot]
    simp [eventsOf, hcompl]
  · rw [hic, hcompl, hnc]
    rfl
  · rw [hfd, hcompl]
    simp
  · rw [hmsg, hbot]

/-- C1 amended witness: the amended statement at a concrete input. -/
theorem claim_C1_amended_witness :
    ∃ st' cF,
      chat 10 oProviderFail stCached "u" "hi"
        = Except.ok (st', ⟨OPENAI_ERROR, false, none⟩,
            [Event.gptCall, Event.msgObs "u" "hi"])
      ∧ alookup st'.clients "u" = some cF
      ∧ cF.message_count = ({ user_id := "u" } : ClientInfo).message_count + 1
      ∧ cF.is_complete = false
      ∧ cF.final_data = ({ user_id := "u" } : ClientInfo).final_data
      ∧ st'.db.messages = stCached.db.messages
          ++ [⟨"u", stCached.clock, "user", "hi"⟩,
              ⟨"u", stCached.clock, "bot", OPENAI_ERROR⟩] :=
  claim_C1_amended 10 oProviderFail stCached "u" "hi" { user_id := "u" }
    rfl (by decide) rfl (by decide) rfl

/-! ## Claim C2 -/

/-- C2: dialogue-completed observers run exactly once per record lifetime.
Part 1: over any sequence of chat turns whose store operations succeed,
started on a record that does not read as complete, the completion-observer
loop runs at most once in total.  Part 2: on every single successful turn
the completion-observer loop runs exactly once when the record transitions
from not-complete to complete and zero times otherwise — in particular a
call that finds the record already complete never re-runs it. -/
theorem claim_C2_completion_once :
    (∀ (maxH : Nat) (uid : String) (turns : List (TurnOracle × String)) (st : CoreState),
      (∀ x ∈ turns, storeAllOk x.1 = true) →
      recComplete st uid = false →
      countCompl (runChats maxH uid turns st).2 ≤ 1)
    ∧ (∀ (maxH : Nat) (o : TurnOracle) (st : CoreState) (uid msg : String)
        (st' : CoreState) (resp : BotResponse) (evs : List Event),
        storeAllOk o = true →
        chat maxH o st uid msg = Except.ok (st', resp, evs) →
        countCompl evs
          = (if recComplete st uid = false ∧ recComplete st' uid = true then 1 else 0)) := by
  constructor
  · intro maxH uid turns st h hfresh
    have hb := runChats_complObs_bound maxH uid turns st h
    rw [hfresh] at hb
    simpa using hb
  · intro maxH o st uid msg st' resp evs hall h
    exact (chat_step_complete maxH o st uid msg st' resp evs hall h).2

/-- C2 witness: a two-turn run in which the first turn completes the
dialogue fires the completion observers at most once. -/
theorem claim_C2_witness :
    countCompl (runChats 10 "u" [(oMark, "privet"), (oMark, "esche")] stFresh).2 ≤ 1 :=
  claim_C2_completion_once.1 10 "u" [(oMark, "privet"), (oMark, "esche")] stFresh
    (by decide) (by decide)

/-! ## Claim C3 -/

/-- A client record that is already complete with extracted data. -/
def cDone : ClientInfo :=
  { user_id := "u", is_complete := true, message_count := 3,
    final_data := some [("name", JVal.jstr "Ivan")] }

/-- An initialized engine caching the already-complete client "u". -/
def stDone : CoreState :=
  { clients := [("u", cDone)], conversation_history := [], inited := true,
    db := { clients := [], messages := [] }, clock := 0 }

/-- Oracle whose reply repeats the completion sentinel while the extraction
response carries no JSON. -/
def oMarkAgain : TurnOracle :=
  { gpt := POutcome.ok ("Vse gotovo. " ++ COMPLETION_MARKER),
    extractResp := POutcome.ok "net dannyh", parse := parse0 }

/-- C3 counterexample: a chat call on an ALREADY-complete client whose
model reply contains the sentinel again DOES make the extraction provider
call a second time and overwrites extractedData (here from a populated
mapping to the empty mapping), contradicting the claim that this can never
happen regardless of the reply. -/
theorem claim_C3_counterexample :
    ((chat 10 oMarkAgain stDone "u" "hi").toOption.map
        (fun r => (r.2.2.contains Event.extractCall,
          (alookup r.1.clients "u").map ClientInfo.final_data))
      = some (true, some (some [])))
    ∧ cDone.final_data = some [("name", JVal.jstr "Ivan")] := by
  decide

/-- C3 (amended): on a chat call that finds the record already complete,
the extraction call is not made again and extractedData is unchanged
PROVIDED the model reply does not contain the completion sentinel; the
completion observers do not re-fire either way.  (If the reply does repeat
the sentinel the code re-runs extraction and overwrites extractedData, see
the counterexample.) -/
theorem claim_C3_amended (maxH : Nat) (o : TurnOracle) (st : CoreState) (uid msg : String)
    (c : ClientInfo) (t : String) (hin : st.inited = true)
    (hc : alookup st.clients uid = some c) (hcomp : c.is_complete = true)
    (hall : storeAllOk o = true) (hg : o.gpt = POutcome.ok t)
    (hm : pyContains (pyStrip t) COMPLETION_MARKER = false) :
    ∃ st' resp evs cF,
      chat maxH o st uid msg = Except.ok (st', resp, evs)
      ∧ Event.extractCall ∉ evs
      ∧ countCompl evs = 0
      ∧ alookup st'.clients uid = some cF
      ∧ cF.final_data = c.final_data
      ∧ cF.is_complete = true := by
  simp only [storeAllOk, Bool.and_eq_true] at hall
  obtain ⟨⟨⟨⟨hio, hlo⟩, huo⟩, hbo⟩, hso⟩ := hall
  have hcompl : isCompletedTurn o = false := by
    rw [isCompletedTurn, gptText, generateGptResponse, hg]
    exact hm
  obtain ⟨st3, cF, hres, halk, huid2, hic, hmc, hca, hfd, hmsg, h3in, h3k⟩ :=
    chatResolved_spec maxH o st uid msg c huo hbo hso
  have hchat := chat_of_resolved_ok maxH o st uid msg c hin hc _ hres
  refine ⟨st3, _, _, cF, hchat, ?_, ?_, halk, ?_, ?_⟩
  · simp [eventsOf, hcompl]
  · rw [countCompl_eventsOf, hcompl]
    simp
  · rw [hfd, hcompl]
    simp
  · rw [hic, hcomp]
    simp

/-- Oracle whose reply is plain text without the sentinel. -/
def oPlainReply : TurnOracle :=
  { gpt := POutcome.ok "Horoshego dnya!", extractResp := POutcome.fail,
    parse := parse0 }

/-- C3 amended witness: the amended statement at a concrete input. -/
theorem claim_C3_amended_witness :
    ∃ st' resp evs cF,
      chat 10 oPlainReply stDone "u" "hi" = Except.ok (st', resp, evs)
      ∧ Event.extractCall ∉ evs
      ∧ countCompl evs = 0
      ∧ alookup st'.clients "u" = some cF
      ∧ cF.final_data = cDone.final_data
      ∧ cF.is_complete = true :=
  claim_C3_amended 10 oPlainReply stDone "u" "hi" cDone "Horoshego dnya!"
    rfl (by decide) rfl (by decide) rfl (by decide)

/-! ## Claim C4 -/

/-- Oracle: the reply completes the dialogue; the extraction response has
no JSON object, so the extracted mapping is empty. -/
def oMarkNoJson : TurnOracle :=
  { gpt := POutcome.ok ("Spasibo! " ++ COMPLETION_MARKER),
    extractResp := POutcome.ok "nikakogo json zdes net", parse := parse0 }

/-- C4 counterexample: complete a fresh client with an extraction that
yields the empty mapping, then reload the record through getClient after
the in-memory cache no longer holds it (a process restart keeps only the
store).  The reloaded record shows isComplete = true with extractedData
null: _save_client stores NULL for the falsy empty dict, breaking the
claimed invariant at a store round-trip. -/
theorem claim_C4_counterexample :
    ((chat 10 oMarkNoJson stFresh "u" "hi").toOption.bind (fun r =>
        (getClientInfo oMarkNoJson
            { clients := [], conversation_history := [],
              inited := false, db := r.1.db, clock := 7 } "u").toOption.map
          (fun g => (g.2.is_complete, g.2.final_data))))
      = some (true, none) := by
  decide

/-- C4 (amended): the invariant "extractedData is non-null iff isComplete"
holds for the in-memory record across any successful chat turn (immediately
after a completion the cached record is complete with a non-null, possibly
empty, mapping); but persistence breaks it for the empty mapping: a client
whose final_data is the empty mapping is saved with a NULL final_data
column, so a record reloaded from the store after completion-with-empty-
extraction reads as complete with null extractedData. -/
theorem claim_C4_amended :
    (∀ (maxH : Nat) (o : TurnOracle) (st : CoreState) (uid msg : String) (c : ClientInfo),
      st.inited = true → alookup st.clients uid = some c → storeAllOk o = true →
      (c.final_data ≠ none ↔ c.is_complete = true) →
      ∃ st' resp evs cF,
        chat maxH o st uid msg = Except.ok (st', resp, evs)
        ∧ alookup st'.clients uid = some cF
        ∧ (cF.final_data ≠ none ↔ cF.is_complete = true))
    ∧ (∀ (st : CoreState) (c : ClientInfo), c.final_data = some [] →
        alookup (saveClientRow st c).db.clients c.user_id
          = some ⟨c.raw_data, none, c.is_complete, c.message_count,
                  c.created_at, st.clock⟩) := by
  constructor
  · intro maxH o st uid msg c hin hc hall hinv
    simp only [storeAllOk, Bool.and_eq_true] at hall
    obtain ⟨⟨⟨⟨hio, hlo⟩, huo⟩, hbo⟩, hso⟩ := hall
    obtain ⟨st3, cF, hres, halk, huid2, hic, hmc, hca, hfd, hmsg, h3in, h3k⟩ :=
      chatResolved_spec maxH o st uid msg c huo hbo hso
    have hchat := chat_of_resolved_ok maxH o st uid msg c hin hc _ hres
    refine ⟨st3, _, _, cF, hchat, halk, ?_⟩
    rw [hic, hfd]
    cases hcompl : isCompletedTurn o with
    | false => simpa using hinv
    | true => simp
  · intro st c hfd
    simp [saveClientRow, finalDataColumn, hfd, alookup_aset_self]

/-- C4 amended witness: the in-memory invariant, preserved across a
completing turn at a concrete input. -/
theorem claim_C4_amended_witness :
    ∃ st' resp evs cF,
      chat 10 oMarkNoJson stCached "u" "hi" = Except.ok (st', resp, evs)
      ∧ alookup st'.clients "u" = some cF
      ∧ (cF.final_data ≠ none ↔ cF.is_complete = true) :=
  claim_C4_amended.1 10 oMarkNoJson stCached "u" "hi" { user_id := "u" }
    rfl (by decide) (by decide) (by simp)

/-! ## Claim C5 -/

/-- Oracle: the provider succeeds but the per-turn client save fails. -/
def oSaveFail : TurnOracle :=
  { gpt := POutcome.ok "privet", extractResp := POutcome.fail, parse := parse0,
    saveClientOk := false }

/-- C5 counterexample: with a failing client-record store write, chat
returns NORMALLY with the fixed technical-error response (no exception to
the caller) and reset returns the normal value false — the store failure
is converted into in-band return values, contradicting the claim that it
propagates to the caller. -/
theorem claim_C5_counterexample :
    ((chat 10 oSaveFail stFresh "u" "hi").toOption.map (fun r => r.2.1.message)
      = some TECHNICAL_ERROR)
    ∧ (resetClient oSaveFail stFresh "u").2.1 = false := by
  decide

/-- C5 (amended): a failure of the durable client-record write is caught
inside the operation, not propagated: chat returns the fixed
technical-error TurnResult and runs the error observers; reset returns
false.  The caller sees an in-band error value, never the exception. -/
theorem claim_C5_amended :
    (∀ (maxH : Nat) (o : TurnOracle) (st : CoreState) (uid msg : String),
      st.inited = true → o.loadOk = true → o.saveUserMsgOk = true →
      o.saveBotMsgOk = true → o.saveClientOk = false →
      ∃ st' evs, chat maxH o st uid msg
          = Except.ok (st', ⟨TECHNICAL_ERROR, false, none⟩, evs)
        ∧ Event.errObs uid msg ∈ evs)
    ∧ (∀ (o : TurnOracle) (st : CoreState) (uid : String),
        o.saveClientOk = false → (resetClient o st uid).2.1 = false) := by
  constructor
  · intro maxH o st uid msg hin hlo huo hbo hs
    obtain ⟨st2, c, hget, hcompl, hlk, h2db, h2h, h2in, h2k⟩ :=
      getOrCreateClient_spec o st uid hlo
    obtain ⟨stE, herr⟩ := chatResolved_saveClientFail maxH o st2 uid msg c huo hbo hs
    have hbody : chatBody maxH o st uid msg
        = Except.error (stE, [Event.gptCall]
            ++ (if isCompletedTurn o then [Event.extractCall] else [])) := by
      rw [chatBody_of_get maxH o st uid msg st2 c hget]
      exact herr
    have hchat := chat_body_error maxH o st uid msg hin stE _ hbody
    exact ⟨stE, _, hchat, by simp⟩
  · intro o st uid hs
    unfold resetClient
    cases h : ensureInited o st with
    | error e => rfl
    | ok st1 => simp [hs]

/-- C5 amended witness: the amended statement at a concrete input. -/
theorem claim_C5_amended_witness :
    (∃ st' evs, chat 10 oSaveFail stFresh "u" "hi"
        = Except.ok (st', ⟨TECHNICAL_ERROR, false, none⟩, evs)
      ∧ Event.errObs "u" "hi" ∈ evs)
    ∧ (resetClient oSaveFail stFresh "v").2.1 = false :=
  ⟨claim_C5_amended.1 10 oSaveFail stFresh "u" "hi" rfl rfl rfl rfl rfl,
   claim_C5_amended.2 oSaveFail stFresh "v" rfl⟩

/-! ## Claim C6 -/

/-- A client record with accumulated state. -/
def cBusy : ClientInfo :=
  { user_id := "u", raw_data := "x", is_complete := true, message_count := 4,
    created_at := 0, final_data := some [("phone", JVal.jstr "+7912")] }

/-- An engine at wall-clock time 5 with cBusy cached, persisted and with
conversation history. -/
def stBusy : CoreState :=
  { clients := [("u", cBusy)],
    conversation_history := [("u", [⟨"user", "hi"⟩])],
    inited := true,
    db := { clients := [("u", ⟨"x", some [("phone", JVal.jstr "+7912")], true, 4, 0, 0⟩)],
            messages := [] },
    clock := 5 }

/-- C6 (code bug): reset_client succeeds, runs no observer, and yields the
zero-state record — messageCount 0, isComplete false, extractedData null,
empty transcript, buffer discarded — but created_at is NOT newly set: the
ClientInfo dataclass default `created_at: datetime = datetime.now()` was
evaluated once at class-definition time, so the reset record carries the
module-load timestamp (classInitTime = 0) although the wall clock at reset
time is 5.  The spec requires a new createdAt; the dataclass default is
the slip. -/
theorem claim_C6_bug_eval :
    (resetClient oProviderFail stBusy "u").2.1 = true
    ∧ (resetClient oProviderFail stBusy "u").2.2 = []
    ∧ alookup (resetClient oProviderFail stBusy "u").1.clients "u"
        = some { user_id := "u", raw_data := "", is_complete := false,
                 message_count := 0, created_at := classInitTime, final_data := none }
    ∧ alookup (resetClient oProviderFail stBusy "u").1.conversation_history "u" = none
    ∧ stBusy.clock = 5
    ∧ classInitTime = 0 := by
  decide

/-! ## Claim C7 -/

/-- C7: for any positive configured maximum history length, the per-client
conversation buffer built by iterating _update_conversation_history from an
empty buffer equals the window of the most recent maxH turns in order
(oldest evicted first); hence its length never exceeds maxH, and after
exactly maxH + 1 appended turns it holds exactly maxH entries.
(Spec-modelled configuration: config.py is absent from src/; the Python
slice `[-0:]` would disable trimming for a zero maximum, so the positive
bound is assumed.) -/
theorem claim_C7_buffer_bounded (maxH : Nat) (hn : 1 ≤ maxH) (uid : String)
    (items : List Turn) (st : CoreState) (h0 : bufferOf st uid = []) :
    bufferOf (runHistory maxH uid items st) uid = suffixWindow maxH items
    ∧ (bufferOf (runHistory maxH uid items st) uid).length ≤ maxH
    ∧ (items.length = maxH + 1 →
        (bufferOf (runHistory maxH uid items st) uid).length = maxH) := by
  have hbuf : bufferOf (runHistory maxH uid items st) uid = suffixWindow maxH items := by
    rw [bufferOf_runHistory, h0]
    exact foldWin_eq maxH hn items
  refine ⟨hbuf, ?_, ?_⟩
  · rw [hbuf, suffixWindow_length]
    omega
  · intro hlen
    rw [hbuf, suffixWindow_length, hlen]
    omega

/-- C7 witness: three turns through a window of two keep the most recent
two turns. -/
theorem claim_C7_witness :
    bufferOf (runHistory 2 "u" [⟨"user", "a"⟩, ⟨"assistant", "b"⟩, ⟨"user", "c"⟩] stFresh) "u"
      = suffixWindow 2 [⟨"user", "a"⟩, ⟨"assistant", "b"⟩, ⟨"user", "c"⟩]
    ∧ (bufferOf (runHistory 2 "u" [⟨"user", "a"⟩, ⟨"assistant", "b"⟩, ⟨"user", "c"⟩] stFresh) "u").length ≤ 2
    ∧ ([(⟨"user", "a"⟩ : Turn), ⟨"assistant", "b"⟩, ⟨"user", "c"⟩].length = 2 + 1 →
        (bufferOf (runHistory 2 "u" [⟨"user", "a"⟩, ⟨"assistant", "b"⟩, ⟨"user", "c"⟩] stFresh) "u").length = 2) :=
  claim_C7_buffer_bounded 2 (by decide) "u"
    [⟨"user", "a"⟩, ⟨"assistant", "b"⟩, ⟨"user", "c"⟩] stFresh (by decide)

/-! ## Claim C8 -/

/-- C8: on a newly completed turn (record not complete before, reply
contains the sentinel, store works) the turn reports completion and its
extracted data is exactly the result of _extract_final_data; and that
result is the JSON parse of the greedy span from the first open brace to
the last close brace of the (whitespace-stripped) extraction response —
with the empty mapping whenever the provider call fails, no such span
exists (in particular when no open brace occurs anywhere), or the span is
not valid JSON — while completion is still reported as true. -/
theorem claim_C8_extraction (maxH : Nat) (o : TurnOracle) (st : CoreState)
    (uid msg : String) (c : ClientInfo) (t : String)
    (hin : st.inited = true) (hc : alookup st.clients uid = some c)
    (hnc : c.is_complete = false) (hall : storeAllOk o = true)
    (hg : o.gpt = POutcome.ok t)
    (hm : pyContains (pyStrip t) COMPLETION_MARKER = true) :
    (∃ st' cF,
      chat maxH o st uid msg
        = Except.ok (st', ⟨botText o, true, some (extractFinalData o c)⟩,
            eventsOf uid msg o false)
      ∧ alookup st'.clients uid = some cF
      ∧ cF.is_complete = true
      ∧ cF.final_data = some (extractFinalData o c))
    ∧ (o.extractResp = POutcome.fail → extractFinalData o c = [])
    ∧ (∀ e, o.extractResp = POutcome.ok e → firstBraceSpan (pyStrip e) = none →
        extractFinalData o c = [])
    ∧ (∀ e sp, o.extractResp = POutcome.ok e → firstBraceSpan (pyStrip e) = some sp →
        o.parse sp = none → extractFinalData o c = [])
    ∧ (∀ e sp d, o.extractResp = POutcome.ok e → firstBraceSpan (pyStrip e) = some sp →
        o.parse sp = some d → extractFinalData o c = d)
    ∧ (∀ e, o.extractResp = POutcome.ok e → (∀ ch ∈ (pyStrip e).data, ch ≠ '\x7b') →
        extractFinalData o c = []) := by
  have hcompl : isCompletedTurn o = true := by
    rw [isCompletedTurn, gptText, generateGptResponse, hg]
    exact hm
  refine ⟨?_, ?_, ?_, ?_, ?_, ?_⟩
  · simp only [storeAllOk, Bool.and_eq_true] at hall
    obtain ⟨⟨⟨⟨hio, hlo⟩, huo⟩, hbo⟩, hso⟩ := hall
    obtain ⟨st3, cF, hres, halk, huid2, hic, hmc, hca, hfd, hmsg, h3in, h3k⟩ :=
      chatResolved_spec maxH o st uid msg c huo hbo hso
    rw [hcompl] at hres hic hfd
    simp only [if_true] at hres hfd
    rw [hfd] at hres
    have hchat := chat_of_resolved_ok maxH o st uid msg c hin hc _ hres
    rw [hnc] at hchat
    refine ⟨st3, cF, hchat, halk, ?_, hfd⟩
    simp [hic]
  · intro h
    simp [extractFinalData, h]
  · intro e he hsp
    simp [extractFinalData, he, hsp]
  · intro e sp he hsp hp
    simp [extractFinalData, he, hsp, hp]
  · intro e sp d he hsp hp
    simp [extractFinalData, he, hsp, hp]
  · intro e he hno
    have hs := firstBraceSpan_none_of_no_open (pyStrip e) hno
    simp [extractFinalData, he, hs]

/-- C8 witness: the statement at a concrete completing turn whose
extraction response has no brace at all. -/
theorem claim_C8_witness :
    (∃ st' cF,
      chat 10 oMarkNoJson stCached "u" "hi"
        = Except.ok (st', ⟨botText oMarkNoJson, true,
            some (extractFinalData oMarkNoJson { user_id := "u" })⟩,
            eventsOf "u" "hi" oMarkNoJson false)
      ∧ alookup st'.clients "u" = some cF
      ∧ cF.is_complete = true
      ∧ cF.final_data = some (extractFinalData oMarkNoJson { user_id := "u" }))
    ∧ (oMarkNoJson.extractResp = POutcome.fail →
        extractFinalData oMarkNoJson { user_id := "u" } = [])
    ∧ (∀ e, oMarkNoJson.extractResp = POutcome.ok e → firstBraceSpan (pyStrip e) = none →
        extractFinalData oMarkNoJson { user_id := "u" } = [])
    ∧ (∀ e sp, oMarkNoJson.extractResp = POutcome.ok e →
        firstBraceSpan (pyStrip e) = some sp →
        oMarkNoJson.parse sp = none → extractFinalData oMarkNoJson { user_id := "u" } = [])
    ∧ (∀ e sp d, oMarkNoJson.extractResp = POutcome.ok e →
        firstBraceSpan (pyStrip e) = some sp →
        oMarkNoJson.parse sp = some d → extractFinalData oMarkNoJson { user_id := "u" } = d)
    ∧ (∀ e, oMarkNoJson.extractResp = POutcome.ok e →
        (∀ ch ∈ (pyStrip e).data, ch ≠ '\x7b') →
        extractFinalData oMarkNoJson { user_id := "u" } = []) :=
  claim_C8_extraction 10 oMarkNoJson stCached "u" "hi" { user_id := "u" }
    ("Spasibo! " ++ COMPLETION_MARKER) rfl (by decide) rfl (by decide) rfl (by decide)

/-! ## Claim C9 -/

/-- Oracle whose database initialization fails. -/
def oInitFail : TurnOracle :=
  { gpt := POutcome.ok "privet", extractResp := POutcome.fail, parse := parse0,
    initOk := false }

/-- An engine that has not yet run its lazy initialization. -/
def stUninit : CoreState :=
  { clients := [], conversation_history := [], inited := false,
    db := { clients := [], messages := [] }, clock := 0 }

/-- C9 counterexample: on the first ever call, a store failure inside the
lazy _ensure_initialized — which sits OUTSIDE the try block of chat — makes
chat raise to its caller instead of returning a BotResponse. -/
theorem claim_C9_counterexample :
    (chat 10 oInitFail stUninit "u" "privet").toOption = none := by
  decide

/-- C9 (amended): once the engine is initialized, chat never raises: every
outcome is a returned BotResponse; and a failure inside the try block (for
instance the store read of _get_or_create_client) yields the fixed
technical-error response with is_completed false and extracted_data null,
after running the error observers.  The only exception that can escape
chat is a store failure during the lazy initialization on the call that
performs it. -/
theorem claim_C9_amended :
    (∀ (maxH : Nat) (o : TurnOracle) (st : CoreState) (uid msg : String),
      st.inited = true → ∃ r, chat maxH o st uid msg = Except.ok r)
    ∧ (∀ (maxH : Nat) (o : TurnOracle) (st : CoreState) (uid msg : String),
        st.inited = true → o.loadOk = false → alookup st.clients uid = none →
        chat maxH o st uid msg
          = Except.ok (st, ⟨TECHNICAL_ERROR, false, none⟩, [Event.errObs uid msg])) := by
  constructor
  · intro maxH o st uid msg hin
    cases h : chatBody maxH o st uid msg with
    | ok r => exact ⟨r, chat_body_ok maxH o st uid msg r hin h⟩
    | error e =>
      obtain ⟨st2, evs⟩ := e
      exact ⟨_, chat_body_error maxH o st uid msg hin st2 evs h⟩
  · intro maxH o st uid msg hin hload hnone
    have hb : chatBody maxH o st uid msg = Except.error (st, []) := by
      simp [chatBody, getOrCreateClient, hnone, hload]
    have hchat := chat_body_error maxH o st uid msg hin st [] hb
    simpa using hchat

/-- Oracle whose client-record store read fails. -/
def oLoadFail : TurnOracle :=
  { gpt := POutcome.ok "privet", extractResp := POutcome.fail, parse := parse0,
    loadOk := false }

/-- C9 amended witness: the amended statement at a concrete input. -/
theorem claim_C9_amended_witness :
    (∃ r, chat 10 oLoadFail stFresh "u" "hi" = Except.ok r)
    ∧ chat 10 oLoadFail stFresh "u" "hi"
        = Except.ok (stFresh, ⟨TECHNICAL_ERROR, false, none⟩, [Event.errObs "u" "hi"]) :=
  ⟨claim_C9_amended.1 10 oLoadFail stFresh "u" "hi" rfl,
   claim_C9_amended.2 10 oLoadFail stFresh "u" "hi" rfl rfl rfl⟩

/-! ## Claim C10 -/

theorem ensureInited_ok_inv (o : TurnOracle) (st st1 : CoreState)
    (h : ensureInited o st = Except.ok st1) :
    st1.clients = st.clients ∧ st1.db = st.db
    ∧ st1.conversation_history = st.conversation_history ∧ st1.clock = st.clock := by
  unfold ensureInited at h
  by_cases hi : st.inited = true
  · rw [if_pos hi] at h
    obtain rfl : st = st1 := by simpa using h
    exact ⟨rfl, rfl, rfl, rfl⟩
  · rw [if_neg hi] at h
    by_cases ho : o.initOk = true
    · rw [if_pos ho] at h
      obtain rfl : ({ st with inited := true } : CoreState) = st1 := by simpa using h
      exact ⟨rfl, rfl, rfl, rfl⟩
    · rw [if_neg ho] at h
      cases h

/-- C10: reset_client never touches the messages table — every row of the
per-message log, for this client and all others, is still present after a
reset — and for every OTHER clientId the persisted client row, the cached
record and the conversation buffer are all left unchanged; only the record of the reset
client is overwritten and its buffer removed. -/
theorem claim_C10_reset_frame (o : TurnOracle) (st : CoreState) (uid : String) :
    (resetClient o st uid).1.db.messages = st.db.messages
    ∧ (∀ uid2, uid2 ≠ uid →
        alookup (resetClient o st uid).1.db.clients uid2 = alookup st.db.clients uid2
        ∧ alookup (resetClient o st uid).1.clients uid2 = alookup st.clients uid2
        ∧ alookup (resetClient o st uid).1.conversation_history uid2
            = alookup st.conversation_history uid2) := by
  unfold resetClient
  cases h : ensureInited o st with
  | error e => exact ⟨rfl, fun uid2 h2 => ⟨rfl, rfl, rfl⟩⟩
  | ok st1 =>
    obtain ⟨h1c, h1db, h1h, h1k⟩ := ensureInited_ok_inv o st st1 h
    cases hsc : o.saveClientOk with
    | false =>
      simp only [hsc, Bool.false_eq_true, if_false]
      refine ⟨by simp [h1db], fun uid2 h2 => ⟨by simp [h1db], ?_, by simp [h1h]⟩⟩
      simp [alookup_aset_ne _ _ _ _ h2, h1c]
    | true =>
      simp only [hsc, if_true]
      refine ⟨by simp [h1db], fun uid2 h2 => ⟨?_, ?_, ?_⟩⟩
      · simp only [saveClientRow_dbclients, cacheSet_db]
        rw [h1db]
        exact alookup_aset_ne _ _ _ _ h2
      · simp only [saveClientRow_clients, cacheSet_clients]
        rw [alookup_aset_ne _ _ _ _ h2, h1c]
      · simp only [saveClientRow_history, cacheSet_history]
        rw [alookup_aerase_ne _ _ _ h2, h1h]

/-- C10 witness: the frame property at a concrete input. -/
theorem claim_C10_witness :
    (resetClient oProviderFail stBusy "u").1.db.messages = stBusy.db.messages
    ∧ alookup (resetClient oProviderFail stBusy "u").1.db.clients "v"
        = alookup stBusy.db.clients "v" :=
  ⟨(claim_C10_reset_frame oProviderFail stBusy "u").1,
   ((claim_C10_reset_frame oProviderFail stBusy "u").2 "v" (by decide)).1⟩

end RentalBot
